import Mathlib

/-!
Verification development for the sqlite_tools data-model layer
(src/datamodels): a shallow embedding of the typed-column value system
(datatypes.py), the schema merge (utils.py), the SQL statement compilers
(sqlparser.py) and the persist orchestration (models.py), together with
theorems settling the frozen claims about that code.

Conventions of the embedding:
* Python values flowing through columns are modelled by the inductive
  type Val.  Python float objects are abstracted as vReal carrying an
  integer identifier: no claim depends on float arithmetic or printing.
* datetime.now() is an external effect; functions that may autofill a
  timestamp take an explicit now : Nat naming the current instant.
  The textual form produced by strftime is abstracted by fmtTimestamp;
  no claim constrains the digits of a rendered timestamp, only its
  quoting and its placement inside statements.
* Fallible Python code (raised exceptions) is modelled with Except Err.
* Mutation of column objects is modelled by explicit state passing:
  an operation that mutates a column returns the updated column.
-/

/-! ## Python string helpers: re.sub reformat, str.join -/

/-- Whitespace class of the Python regex escape backslash-s. -/
def isPySpace (c : Char) : Bool :=
  c = ' ' || c = '\t' || c = '\n' || c = '\r' || c = '\x0b' || c = '\x0c'

/-- Splits a character list into maximal runs of non-whitespace characters,
accumulator-style (acc holds the current word reversed). -/
def wordsAux : List Char → List Char → List (List Char)
  | [], acc => if acc.isEmpty then [] else [acc.reverse]
  | c :: cs, acc =>
    if isPySpace c then
      if acc.isEmpty then wordsAux cs [] else acc.reverse :: wordsAux cs []
    else wordsAux cs (c :: acc)

/-- The whitespace-separated words of a character list. -/
def words (l : List Char) : List (List Char) := wordsAux l []

/-- Embeds SQLParser.reformat (sqlparser.py:31-32): collapse every maximal
whitespace run to one space and strip the ends.  Collapsing runs and
stripping is the same as joining the whitespace-separated words with
single spaces. -/
def reformat (s : String) : String := ⟨List.intercalate [' '] (words s.data)⟩

/-- Embeds Python str.join: sep.join(list). -/
def pyJoin (sep : String) : List String → String
  | [] => ""
  | [s] => s
  | s :: rest => s ++ sep ++ pyJoin sep rest

/-! ## Values, kinds, exceptions -/

/-- A Python value held by a column.  vReal abstracts a float object by an
integer identifier (no claim depends on float semantics); vDatetime
abstracts a datetime object by a Nat naming the instant. -/
inductive Val where
  | vInt (n : Int)
  | vReal (r : Int)
  | vStr (s : String)
  | vBool (b : Bool)
  | vDatetime (t : Nat)
deriving Repr, DecidableEq

/-- The five column kinds: DataTypeInteger, DataTypeFloat, DataTypeString,
DataTypeDateTime, DataTypeBoolean (datatypes.py:185-319). -/
inductive Kind where
  | integer
  | real
  | text
  | datetimeText
  | boolean
deriving Repr, DecidableEq

/-- Exceptions raised by the embedded code: the custom taxonomy of
exceptions.py plus the Python built-in errors the code can hit. -/
inductive Err where
  | attributeRequiredError
  | attributeTypeError (expected : Kind) (got : Val)
  | attributeAutofillError (got : Option Val)
  | attributeForeignKeyError
  | keyLookupError
  | pyTypeError
  | pyValueError
deriving Repr, DecidableEq

/-- Python str() of a value as far as the claims need it: decimal for int,
True and False for bool, identity for str.  Floats and datetimes keep
their abstract identifier; no claim constrains their str() text. -/
def pyStr : Val → String
  | .vInt n => toString n
  | .vReal r => toString r
  | .vStr s => s
  | .vBool b => if b then "True" else "False"
  | .vDatetime t => toString t

/-- Python int() of a value: identity on int, 0 or 1 on bool, digit parse
on str (ValueError on failure), truncation abstracted as identity on the
vReal identifier, TypeError on None-like and datetime arguments is
handled at the call sites. -/
def pyInt : Val → Except Err Int
  | .vInt n => pure n
  | .vBool b => pure (if b then 1 else 0)
  | .vStr s => match s.toInt? with
               | some n => pure n
               | none => throw .pyValueError
  | .vReal r => pure r
  | .vDatetime _ => throw .pyTypeError

/-- Python == between optional column values as far as the claims need it:
int and bool compare across types (True == 1); otherwise structural. -/
def pyEqVal : Val → Val → Bool
  | .vInt a, .vBool b => a = (if b then 1 else 0)
  | .vBool b, .vInt a => a = (if b then 1 else 0)
  | a, b => a = b

/-- Python == lifted to optional values (None equals only None). -/
def pyEqOpt : Option Val → Option Val → Bool
  | none, none => true
  | some a, some b => pyEqVal a b
  | _, _ => false

/-! ## Timestamp text: pattern and rendering -/

/-- Abstraction of strftime to millisecond precision on the abstract
instant t (DataTypeDateTime._to_str drops the last three microsecond
digits; the digits themselves are not constrained by any claim). -/
def fmtTimestamp (t : Nat) : String := toString t

/-- Embeds DataTypeDateTime._to_str (datatypes.py:281-282): the double
quoted millisecond-precision timestamp literal. -/
def tsLiteral (t : Nat) : String := "\"" ++ fmtTimestamp t ++ "\""

/-- Abstraction of DataTypeDateTime._from_str (datatypes.py:278-279):
strptime of a pattern-shaped string to an instant, inverse of the
abstract rendering. -/
def strptimeTs (s : String) : Nat := s.toNat?.getD 0

/-- Consume exactly n decimal digits. -/
def takeDigits : Nat → List Char → Option (List Char)
  | 0, l => some l
  | _ + 1, [] => none
  | n + 1, c :: l => if c.isDigit then takeDigits n l else none

/-- Consume one expected character. -/
def expectChar (x : Char) : List Char → Option (List Char)
  | [] => none
  | c :: l => if c = x then some l else none

/-- Consume one whitespace character (the regex escape backslash-s). -/
def expectSpaceChar : List Char → Option (List Char)
  | [] => none
  | c :: l => if isPySpace c then some l else none

/-- Embeds re.match of DataTypeDateTime.datetime_regex
(datatypes.py:229): a prefix match of four digits, dash, two digits,
dash, two digits, one whitespace, two digits, colon, two digits, colon,
two digits, dot, three digits.  re.match anchors at the start only, so
trailing characters are ignored. -/
def tsMatch (l : List Char) : Bool :=
  (do
    let l ← takeDigits 4 l
    let l ← expectChar '-' l
    let l ← takeDigits 2 l
    let l ← expectChar '-' l
    let l ← takeDigits 2 l
    let l ← expectSpaceChar l
    let l ← takeDigits 2 l
    let l ← expectChar ':' l
    let l ← takeDigits 2 l
    let l ← expectChar ':' l
    let l ← takeDigits 2 l
    let l ← expectChar '.' l
    let l ← takeDigits 3 l
    pure l).isSome

/-- The fixed timestamp pattern check on a string. -/
def matchTsRegex (s : String) : Bool := tsMatch s.data

/-! ## Column model: the DataType object -/

/-- A referenced parent model as the foreign-key rendering needs it:
its class name and the optional explicit table name of its meta class. -/
structure TableRef where
  class_name : String
  db_name : Option String
deriving Repr, DecidableEq

/-- A well-formed foreign-key declaration: the parent model and the
optional referenced column name (None means the id column). -/
structure FK where
  parent : TableRef
  parent_key : Option String
deriving Repr, DecidableEq

/-- Embeds utils.get_table_name (utils.py:2-13): the explicit
meta db_name when configured, else the class name. -/
def get_table_name (t : TableRef) : String := t.db_name.getD t.class_name

/-- One column value object: the instance state laid down by
DataType.__init__ (datatypes.py:18-49) and, for DataTypeDateTime, the
two autofill flags (datatypes.py:231-235).  The field order mirrors the
assignment order in __init__, which fixes the instance dict order used
by SQLCreateTable._parse_constraints.  The field change_ models the
attribute named underscore-change that the buggy clear_change
(datatypes.py:98-99) assigns: none means the attribute was never
created. -/
structure DataType where
  kind : Kind
  primary_key : Bool
  foreign_key : Option FK
  not_null : Bool
  default : Option Val
  changed : Bool
  change_ : Option Bool
  value : Option Val
  update_on_created : Bool
  update_on_modified : Bool
deriving Repr, DecidableEq

/-- Embeds the field initialisation of DataType.__init__
(datatypes.py:18-49) plus the DataTypeDateTime flags: constraint flags
from the keyword arguments, the dirty flag cleared, and the default
taken as the value when the supplied value is None.  The foreign-key
well-formedness check of lines 37-44 (a malformed or dangling reference
raises AttributeForeignKeyError) is a construction-time check on the
parent model that no claim depends on, so the embedding takes the
already well-formed FK pair. -/
def DataType_init (kind : Kind) (value : Option Val) (pk : Bool)
    (fk : Option FK) (nn : Bool) (dflt : Option Val)
    (uoc : Bool) (uom : Bool) : DataType :=
  { kind := kind, primary_key := pk, foreign_key := fk, not_null := nn,
    default := dflt, changed := false, change_ := none,
    value := match value with | none => dflt | some v => some v,
    update_on_created := uoc, update_on_modified := uom }

/-- Embeds the dtype_name class attributes: integer, real, text
(DataTypeDateTime inherits text from DataTypeString), integer for
boolean. -/
def dtype_name : Kind → String
  | .integer => "integer"
  | .real => "real"
  | .text => "text"
  | .datetimeText => "text"
  | .boolean => "integer"

/-- Embeds Python isinstance(value, dtype) for each dtype a column kind
carries.  A Python bool is a subclass of int, so a bool value passes the
integer check; an int does not pass the bool check. -/
def isinstanceOf : Kind → Val → Bool
  | .integer, .vInt _ => true
  | .integer, .vBool _ => true
  | .real, .vReal _ => true
  | .text, .vStr _ => true
  | .datetimeText, .vDatetime _ => true
  | .boolean, .vBool _ => true
  | _, _ => false

/-- Embeds DataType.set_change (datatypes.py:92-96). -/
def DataType.set_change (d : DataType) : DataType := { d with changed := true }

/-- Embeds DataType.clear_change (datatypes.py:98-99) exactly as written:
the method assigns the attribute named underscore-change, a different
attribute from the dirty flag underscore-changed, which it leaves
untouched. -/
def DataType.clear_change (d : DataType) : DataType := { d with change_ := some false }

/-- Embeds DataType.autofill_check (datatypes.py:65-68) and its
DataTypeDateTime override (datatypes.py:247-254): the base class is
autofilled only when it is the primary key; a datetime column also when
update_on_modified, or when update_on_created with no value yet. -/
def DataType.autofill_check (d : DataType) : Bool :=
  if d.kind = .datetimeText then
    d.primary_key || d.update_on_modified || (d.update_on_created && d.value = none)
  else
    d.primary_key

/-- Embeds DataType.type_check (datatypes.py:55-63): None passes; a value
of the dtype passes; anything else raises AttributeTypeError. -/
def type_check_base (d : DataType) (v : Option Val) : Except Err Bool :=
  match v with
  | none => pure true
  | some v =>
    if isinstanceOf d.kind v then pure true
    else throw (.attributeTypeError d.kind v)

/-- Embeds type_check with the DataTypeDateTime override
(datatypes.py:237-245): a string candidate is answered by the regex
match (true or false, no exception); every other candidate falls back to
the base check against the datetime dtype. -/
def DataType.type_check (d : DataType) (v : Option Val) : Except Err Bool :=
  if d.kind = .datetimeText then
    match v with
    | some (.vStr s) => pure (matchTsRegex s)
    | _ => type_check_base d v
  else
    type_check_base d v

/-- Embeds DataType.autofill (datatypes.py:123-128) and its
DataTypeDateTime override (datatypes.py:284-293): a no-op for every kind
except datetime, where update_on_modified stamps the current instant
unconditionally and update_on_created stamps it only when the value is
absent, marking the column dirty in both cases. -/
def DataType.autofill (d : DataType) (now : Nat) : DataType :=
  if d.kind = .datetimeText then
    if d.update_on_modified then
      DataType.set_change { d with value := some (.vDatetime now) }
    else if d.update_on_created && d.value = none then
      DataType.set_change { d with value := some (.vDatetime now) }
    else d
  else d

/-- Embeds DataType.update (datatypes.py:70-90): raises
AttributeAutofillError on an autofilled column, runs the virtual
type_check when requested, replaces the value and marks dirty when it
differs, and returns whether a change occurred.  When the virtual
type_check answers false the guarded block is skipped and Python falls
off the end returning None. -/
def update_base (d : DataType) (v : Option Val) (tc : Bool) :
    Except Err (Option Bool × DataType) :=
  if d.autofill_check then throw (.attributeAutofillError v)
  else do
    let ok ← if tc then d.type_check v else pure true
    if ok then
      if pyEqOpt v d.value then pure (some false, d)
      else pure (some true, DataType.set_change { d with value := v })
    else pure (none, d)

/-- Embeds DataTypeDateTime.update (datatypes.py:256-271): on an
autofilled column it silently returns None (no exception); otherwise a
string candidate is converted by strptime and handed to the base update
with the type check disabled.  When its own type_check answers false it
also falls off the end returning None. -/
def update_datetime (d : DataType) (v : Option Val) (tc : Bool) :
    Except Err (Option Bool × DataType) :=
  if d.autofill_check then pure (none, d)
  else do
    let ok ← if tc then d.type_check v else pure true
    if ok then
      let v1 := match v with
                | some (.vStr s) => some (.vDatetime (strptimeTs s))
                | _ => v
      update_base d v1 false
    else pure (none, d)

/-- The virtual update: DataTypeDateTime overrides it, every other kind
uses the base method (DataTypeBoolean.update merely delegates,
datatypes.py:313-314). -/
def DataType.update (d : DataType) (v : Option Val) (tc : Bool) :
    Except Err (Option Bool × DataType) :=
  if d.kind = .datetimeText then update_datetime d v tc
  else update_base d v tc

/-- Embeds DataType.check_constraint (datatypes.py:130-158): the
primary-key and foreign-key checks are no-ops; the not-null check raises
AttributeRequiredError on an absent value. -/
def DataType.check_constraint (d : DataType) : Except Err Unit :=
  if d.not_null then
    match d.value with
    | none => throw .attributeRequiredError
    | some _ => pure ()
  else pure ()

/-! ## Rendering to storage text: to_sqlite -/

/-- Embeds the branch of each to_sqlite override taken when an explicit
value argument is supplied (no autofill, no state change):
str(value) for integer, real and boolean (datatypes.py:167-168,
316-319 with a non-None argument), double quoting for text
(datatypes.py:217-218, a TypeError when the argument is not a string,
since Python cannot concatenate str and non-str), and the timestamp
literal for datetime (datatypes.py:296-297, a TypeError when the
argument is not a datetime, since strftime rejects it). -/
def to_sqlite_val (d : DataType) (v : Val) : Except Err String :=
  match d.kind with
  | .integer => pure (pyStr v)
  | .real => pure (pyStr v)
  | .boolean => pure (pyStr v)
  | .text =>
    match v with
    | .vStr s => pure ("\"" ++ s ++ "\"")
    | _ => throw .pyTypeError
  | .datetimeText =>
    match v with
    | .vDatetime t => pure (tsLiteral t)
    | _ => throw .pyTypeError

/-- Embeds the branch of each to_sqlite override taken with no explicit
value: autofill first, then render the stored value, the text null when
it is absent.  For DataTypeBoolean (datatypes.py:316-319) the source
evaluates int(self.value) before the None test of the base class, so an
absent boolean raises a Python TypeError instead of rendering null. -/
def to_sqlite_auto (d : DataType) (now : Nat) : Except Err (String × DataType) :=
  match d.kind with
  | .integer =>
    match d.value with
    | none => pure ("null", d)
    | some v => pure (pyStr v, d)
  | .real =>
    match d.value with
    | none => pure ("null", d)
    | some v => pure (pyStr v, d)
  | .text =>
    match d.value with
    | none => pure ("null", d)
    | some (.vStr s) => pure ("\"" ++ s ++ "\"", d)
    | some _ => throw .pyTypeError
  | .datetimeText =>
    let d1 := d.autofill now
    match d1.value with
    | none => pure ("null", d1)
    | some (.vDatetime t) => pure (tsLiteral t, d1)
    | some _ => throw .pyTypeError
  | .boolean =>
    match d.value with
    | none => throw .pyTypeError
    | some v => do
      let n ← pyInt v
      pure (pyStr (.vInt n), d)

/-- The virtual to_sqlite with an optional explicit value
(datatypes.py:160-173 and the overrides): an explicit value bypasses
autofill and leaves the column unchanged; otherwise the stored value is
rendered after autofill. -/
def DataType.to_sqlite (d : DataType) (v : Option Val) (now : Nat) :
    Except Err (String × DataType) :=
  match v with
  | some v => do
    let s ← to_sqlite_val d v
    pure (s, d)
  | none => to_sqlite_auto d now

/-! ## Python dict model: insertion-ordered association lists -/

/-- Python dict assignment d[k] = v: replace in place when the key
exists (keeping its original position), else append.  A Python dict
never holds a key twice, so replacing the first occurrence is the same
as replacing every occurrence. -/
def dictSet : List (String × α) → String → α → List (String × α)
  | [], k, v => [(k, v)]
  | p :: rest, k, v =>
    if p.1 = k then (k, v) :: rest else p :: dictSet rest k v

/-- Python dict access d[k]: the value at the first occurrence of the
key, none standing for the KeyError site. -/
def dictLookup (k : String) : List (String × α) → Option α
  | [] => none
  | p :: rest => if p.1 = k then some p.2 else dictLookup k rest

/-- Python dict.update(e): assign every pair of e in order. -/
def dictUpdate (d e : List (String × α)) : List (String × α) :=
  e.foldl (fun acc p => dictSet acc p.1 p.2) d

/-! ## Schema registry: filter_attrs and get_class_attrs -/

/-- What a class dict entry can hold, as far as filter_attrs
distinguishes them: a declared column template, a function or
classmethod (filtered out by value), or some other object such as a
nested class (kept by the value filter). -/
inductive ClsMember where
  | dataCol (d : DataType)
  | methodFn
  | other
deriving Repr, DecidableEq

/-- A Python model class: its name, its own class dict in declaration
order, its direct bases, and the db_name of its meta class.  The dunder
entries of a real class dict are represented only insofar as
filter_attrs could see them; the meta class is carried as the separate
db_name field because its dunder name always filters it out of the
attribute merge. -/
inductive PyClass where
  | mk (cname : String) (own : List (String × ClsMember))
       (bases : List PyClass) (db_name : Option String)

/-- The class name. -/
def PyClass.cname : PyClass → String
  | .mk n _ _ _ => n

/-- The own class dict. -/
def PyClass.own : PyClass → List (String × ClsMember)
  | .mk _ o _ _ => o

/-- The direct bases. -/
def PyClass.bases : PyClass → List PyClass
  | .mk _ _ b _ => b

/-- True when the name starts with two underscores, Python
x[:2] == the two-underscore string (a name shorter than two characters
never does). -/
def startsWithDunder (s : String) : Bool :=
  match s.data with
  | '_' :: '_' :: _ => true
  | _ => false

/-- True for the members whose class name is classmethod or function. -/
def isMethodMember : ClsMember → Bool
  | .methodFn => true
  | _ => false

/-- Embeds utils.filter_attrs (utils.py:28-36): drop dunder-named
entries, then drop functions and classmethods, keeping dict order. -/
def filter_attrs (attrs : List (String × ClsMember)) : List (String × ClsMember) :=
  (attrs.filter (fun p => !startsWithDunder p.1)).filter
    (fun p => !isMethodMember p.2)

/-- Embeds utils.get_class_attrs (utils.py:43-72): an empty dict updated
with the filtered own dict of each DIRECT base in order, then with the
filtered own dict of the class itself.  The source consults
object.__bases__ only, never the bases of the bases, so attributes
declared solely by more distant ancestors are not collected. -/
def get_class_attrs (c : PyClass) : List (String × ClsMember) :=
  let fromParents :=
    c.bases.foldl (fun acc p => dictUpdate acc (filter_attrs p.own)) []
  dictUpdate fromParents (filter_attrs c.own)

/-! ## SQL compilers -/

/-- A live row: its model reference (for the table name) and its
instance dict of column objects in insertion order.  The source reads
this dict back through utils.get_instance_attrs, which drops
underscore-prefixed entries; the attrs list holds exactly the entries
that survive that filter. -/
structure Instance where
  table : TableRef
  attrs : List (String × DataType)
deriving Repr, DecidableEq

/-- Embeds SQLParser.parse_filter (sqlparser.py:13-28) as the loop body:
pairs with a None value are skipped entirely; for the rest the column is
looked up in the schema dict (a missing name is a Python KeyError) and
rendered with the explicit value. -/
def filterParts (attrs : List (String × DataType)) :
    List (String × Option Val) → Except Err (List String)
  | [] => pure []
  | (_, none) :: rest => filterParts attrs rest
  | (n, some v) :: rest => do
    let d ← match dictLookup n attrs with
            | some d => pure d
            | none => throw .keyLookupError
    let lit ← to_sqlite_val d v
    let tl ← filterParts attrs rest
    pure ((n ++ " = " ++ lit) :: tl)

/-- Embeds SQLParser.parse_filter (sqlparser.py:13-28): the rendered
pairs joined with the and separator. -/
def parse_filter (attrs : List (String × DataType))
    (filter : List (String × Option Val)) : Except Err String := do
  let parts ← filterParts attrs filter
  pure (pyJoin " and " parts)

/-- The instance dict names of a column object in assignment order
(underscore-prefixed entries already dropped by get_instance_attrs):
DataType.__init__ assigns primary_key, foreign_key, not_null, default,
then value; DataTypeDateTime.__init__ then assigns update_on_created and
update_on_modified after the super call. -/
def colInstanceAttrNames (d : DataType) : List String :=
  ["primary_key", "foreign_key", "not_null", "default", "value"] ++
    (if d.kind = .datetimeText then ["update_on_created", "update_on_modified"] else [])

/-- Embeds SQLCreateTable._parse_primary_key (sqlparser.py:82-89). -/
def parse_primary_key (d : DataType) : String :=
  if d.primary_key then "primary key" else ""

/-- Embeds SQLCreateTable._parse_not_null (sqlparser.py:91-95). -/
def parse_not_null (d : DataType) : String :=
  if d.not_null then "not null" else ""

/-- Embeds SQLCreateTable._parse_foreign_key (sqlparser.py:97-110):
the references clause naming the parent table and the referenced column,
the id column when none is declared. -/
def parse_foreign_key (d : DataType) : String :=
  match d.foreign_key with
  | none => ""
  | some f =>
    "references " ++ get_table_name f.parent ++ "(" ++ f.parent_key.getD "id" ++ ")"

/-- Embeds SQLCreateTable._parse_constraints (sqlparser.py:63-80): walk
the column object instance dict in order, emit the token of each name
that the constraint parser table knows (primary_key, then foreign_key,
then not_null follow from the __init__ assignment order; every other
name is a KeyError that the loop skips), join with spaces, and
reformat.  The strip before reformat is absorbed by reformat itself. -/
def parse_constraints (d : DataType) : String :=
  let toks := (colInstanceAttrNames d).filterMap (fun n =>
    if n = "primary_key" then some (parse_primary_key d)
    else if n = "not_null" then some (parse_not_null d)
    else if n = "foreign_key" then some (parse_foreign_key d)
    else none)
  reformat (pyJoin " " toks)

/-- Embeds SQLCreateTable._parse_col (sqlparser.py:53-61). -/
def parse_col (n : String) (d : DataType) : String :=
  reformat (n ++ " " ++ dtype_name d.kind ++ " " ++ parse_constraints d)

/-- Embeds SQLCreateTable.parse (sqlparser.py:39-51) over an
already-merged schema dict. -/
def SQLCreateTable_parse (t : TableRef) (attrs : List (String × DataType)) : String :=
  let cols := attrs.map (fun p => parse_col p.1 p.2)
  reformat ("create table if not exists " ++ get_table_name t ++ " (" ++
    reformat (pyJoin ", " cols) ++ ")")

/-- The per-column loop of SQLUpdateInstance.parse (sqlparser.py:204-209)
and of SQLInsertInstance.parse (sqlparser.py:182-184): render every
column of the row with to_sqlite (mutating autofilled columns), and
record for each its name, its rendered text, and its dirty flag as read
after the rendering. -/
def renderAttrs : List (String × DataType) → Nat →
    Except Err (List (String × String × Bool) × List (String × DataType))
  | [], _ => pure ([], [])
  | (n, a) :: rest, now => do
    let (s, a1) ← a.to_sqlite none now
    let (tl, rest1) ← renderAttrs rest now
    pure ((n, s, a1.changed) :: tl, (n, a1) :: rest1)

/-- The set-clause assembly of SQLUpdateInstance.parse
(sqlparser.py:211-216): one name equals value entry per rendered column
whose dirty flag was set, in dict order. -/
def updateChanges (rend : List (String × String × Bool)) : List String :=
  rend.filterMap (fun p => if p.2.2 then some (p.1 ++ " = " ++ p.2.1) else none)

/-- Embeds SQLUpdateInstance.parse (sqlparser.py:188-217): render the id
column (mutating it in place), render every column recording dirty
flags, keep the dirty ones as the set clause, and reformat the filled
command template.  Every path returns a statement string: there is no
no-statement sentinel, so an all-clean row yields the malformed text
update name set where name.id equals the id literal. -/
def SQLUpdateInstance_parse (inst : Instance) (now : Nat) :
    Except Err (String × Instance) := do
  let idA ← match dictLookup "id" inst.attrs with
            | some a => pure a
            | none => throw .keyLookupError
  let (idStr, idA1) ← idA.to_sqlite none now
  let attrs0 := dictSet inst.attrs "id" idA1
  let (rend, attrs1) ← renderAttrs attrs0 now
  let t := get_table_name inst.table
  let stmt := "update " ++ t ++ " set " ++ pyJoin ", " (updateChanges rend) ++
    " where " ++ t ++ ".id = " ++ idStr
  pure (reformat stmt, { inst with attrs := attrs1 })

/-- Embeds SQLInsertInstance.parse (sqlparser.py:176-185): the column
names and the rendered values of every column in dict order, no
reformat. -/
def SQLInsertInstance_parse (inst : Instance) (now : Nat) :
    Except Err (String × Instance) := do
  let (rend, attrs1) ← renderAttrs inst.attrs now
  let stmt := "insert into " ++ get_table_name inst.table ++ " (" ++
    pyJoin ", " (rend.map (fun p => p.1)) ++ ") values (" ++
    pyJoin ", " (rend.map (fun p => p.2.1)) ++ ")"
  pure (stmt, { inst with attrs := attrs1 })

/-- Embeds SQLDeleteInstances.parse (sqlparser.py:220-239) exactly as
written: the filter predicate is computed (so its errors propagate) and
command_str.format(**data) is evaluated but its result is DISCARDED; the
function returns reformat of the untouched template, with the
placeholders still in it. -/
def SQLDeleteInstances_parse (attrs : List (String × DataType))
    (filter : Option (List (String × Option Val))) : Except Err String :=
  match filter with
  | some f => do
    let _ ← parse_filter attrs f
    pure (reformat ("delete from \x7btable_name\x7d" ++ " " ++ "where \x7bfilter_str\x7d"))
  | none => pure (reformat "delete from \x7btable_name\x7d")

/-! ## Model orchestration: check_constraints, clear_changes, migrate -/

/-- Embeds BasicModel.check_constraints (models.py:221-227): every
column checked in dict order, first violation raised. -/
def checkConstraints : List (String × DataType) → Except Err Unit
  | [] => pure ()
  | (_, d) :: rest => do
    let _ ← d.check_constraint
    checkConstraints rest

/-- Embeds BasicModel.clear_changes (models.py:247-249): clear_change on
every column (which, per its source, does not touch the dirty flag). -/
def clearChanges (attrs : List (String × DataType)) : List (String × DataType) :=
  attrs.map (fun p => (p.1, p.2.clear_change))

/-- Embeds BasicModel.migrate (models.py:164-182): compile insert or
update depending on whether the id value is set; the source then guards
if command_str is None, but both compilers always return a string, so
the guard never fires; check constraints, hand the statement to the
driver (the returned Option String is the statement executed, none
would mean the early return), adopt the driver-reported last insert
rowid when the id was absent (a plain attribute assignment that does not
touch the dirty flag), and clear_changes. -/
def migrate (inst : Instance) (now : Nat) (lastRowId : Int) :
    Except Err (Option String × Instance) := do
  let idA ← match dictLookup "id" inst.attrs with
            | some a => pure a
            | none => throw .keyLookupError
  let (command_str, inst1) ←
    match idA.value with
    | none => SQLInsertInstance_parse inst now
    | some _ => SQLUpdateInstance_parse inst now
  let _ ← checkConstraints inst1.attrs
  let idA1 ← match dictLookup "id" inst1.attrs with
             | some a => pure a
             | none => throw .keyLookupError
  let attrs2 :=
    match idA1.value with
    | none => dictSet inst1.attrs "id" { idA1 with value := some (.vInt lastRowId) }
    | some _ => inst1.attrs
  pure (some command_str, { inst1 with attrs := clearChanges attrs2 })

/-! ## Lemmas about the string helpers -/

theorem strData_append (a b : String) : (a ++ b).data = a.data ++ b.data := by
  cases a
  cases b
  rfl

theorem str_ext {s t : String} (h : s.data = t.data) : s = t := by
  cases s
  cases t
  exact congrArg String.mk h

theorem wordsAux_append_space (b : List Char) :
    ∀ (a acc : List Char),
      wordsAux (a ++ ' ' :: b) acc = wordsAux a acc ++ wordsAux b [] := by
  intro a
  induction a with
  | nil =>
    intro acc
    by_cases h : acc.isEmpty <;> simp [wordsAux, isPySpace, h]
  | cons c cs ih =>
    intro acc
    by_cases hc : isPySpace c
    · by_cases ha : acc.isEmpty <;>
        simp [wordsAux, hc, ha, ih]
    · simp [wordsAux, hc, ih]

theorem words_append_space (a b : List Char) :
    words (a ++ ' ' :: b) = words a ++ words b :=
  wordsAux_append_space b a []

theorem wordsAux_all_nonspace :
    ∀ (w acc : List Char), (∀ c ∈ w, isPySpace c = false) →
      (acc ≠ [] ∨ w ≠ []) → wordsAux w acc = [acc.reverse ++ w] := by
  intro w
  induction w with
  | nil =>
    intro acc _ hne
    have hacc : acc ≠ [] := hne.resolve_right (fun h => h rfl)
    simp [wordsAux, hacc]
  | cons c cs ih =>
    intro acc h _
    have hc : isPySpace c = false := h c (List.mem_cons_self c cs)
    have hcs : ∀ x ∈ cs, isPySpace x = false := fun x hx => h x (List.mem_cons_of_mem c hx)
    have := ih (c :: acc) hcs (Or.inl (by simp))
    simp [wordsAux, hc, this]

theorem words_of_nonspace (w : List Char) (h : ∀ c ∈ w, isPySpace c = false)
    (hne : w ≠ []) : words w = [w] := by
  simpa [words] using wordsAux_all_nonspace w [] h (Or.inr hne)

theorem intercalate_cons_ne {α : Type} (sep : List α) (a : List α)
    (l : List (List α)) (h : l ≠ []) :
    List.intercalate sep (a :: l) = a ++ sep ++ List.intercalate sep l := by
  cases l with
  | nil => exact absurd rfl h
  | cons b m =>
    simp [List.intercalate, List.intersperse, List.append_assoc]

theorem intercalate_append_ne {α : Type} (sep : List α) (A B : List (List α))
    (hA : A ≠ []) (hB : B ≠ []) :
    List.intercalate sep (A ++ B) =
      List.intercalate sep A ++ sep ++ List.intercalate sep B := by
  induction A with
  | nil => exact absurd rfl hA
  | cons a A ih =>
    cases A with
    | nil =>
      rw [List.singleton_append, intercalate_cons_ne sep a B hB]
      simp [List.intercalate]
    | cons a2 A2 =>
      have hne : a2 :: A2 ≠ [] := by simp
      have hne2 : a2 :: A2 ++ B ≠ [] := by simp
      rw [List.cons_append, intercalate_cons_ne sep a _ hne2,
        intercalate_cons_ne sep a _ hne, ih hne]
      simp [List.append_assoc]

/-- A string the reformat normalisation leaves unchanged and that
contributes at least one word: no leading or trailing whitespace, single
internal spaces. -/
def normalizedTok (s : String) : Prop :=
  s.data = List.intercalate [' '] (words s.data) ∧ words s.data ≠ []

theorem data_pyJoin_cons (s : String) (s2 : String) (r2 : List String) :
    (pyJoin " " (s :: s2 :: r2)).data =
      s.data ++ ' ' :: (pyJoin " " (s2 :: r2)).data := by
  show ((s ++ " ") ++ pyJoin " " (s2 :: r2)).data = _
  rw [strData_append, strData_append]
  have hsp : (" " : String).data = [' '] := rfl
  rw [hsp]
  simp

theorem words_pyJoin (L : List String) :
    words (pyJoin " " L).data = (L.map (fun s => words s.data)).flatten := by
  induction L with
  | nil => rfl
  | cons s rest ih =>
    cases rest with
    | nil => simp [pyJoin, words]
    | cons s2 r2 =>
      rw [data_pyJoin_cons, words_append_space, ih]
      rfl

theorem data_pyJoin (L : List String) (h : ∀ s ∈ L, normalizedTok s) :
    (pyJoin " " L).data =
      List.intercalate [' '] ((L.map (fun s => words s.data)).flatten) := by
  induction L with
  | nil => rfl
  | cons s rest ih =>
    cases rest with
    | nil =>
      have hs := h s (by simp)
      simpa [pyJoin, List.intercalate] using hs.1
    | cons s2 r2 =>
      have hs := h s (by simp)
      have hrest : ∀ x ∈ s2 :: r2, normalizedTok x := by
        intro x hx
        exact h x (List.mem_cons_of_mem s hx)
      have hjoin : ((s2 :: r2).map (fun x => words x.data)).flatten ≠ [] := by
        have h2 := hrest s2 (by simp)
        simp only [List.map_cons, List.flatten_cons]
        intro hcontra
        exact h2.2 (List.append_eq_nil.mp hcontra).1
      rw [data_pyJoin_cons, ih hrest]
      rw [show (List.map (fun s => words s.data) (s :: s2 :: r2)).flatten =
            words s.data ++ (List.map (fun x => words x.data) (s2 :: r2)).flatten
          from by simp]
      rw [intercalate_append_ne [' '] _ _ hs.2 hjoin, ← hs.1]
      simp [List.append_assoc]

theorem reformat_pyJoin (L : List String) (h : ∀ s ∈ L, normalizedTok s) :
    reformat (pyJoin " " L) = pyJoin " " L := by
  apply str_ext
  show List.intercalate [' '] (words (pyJoin " " L).data) = _
  rw [words_pyJoin, ← data_pyJoin L h]

theorem reformat_pyJoin_congr (L M : List String)
    (h : (L.map (fun s => words s.data)).flatten =
         (M.map (fun s => words s.data)).flatten) :
    reformat (pyJoin " " L) = reformat (pyJoin " " M) := by
  unfold reformat
  rw [words_pyJoin, words_pyJoin, h]

/-! ## Lemmas about the dict model -/

/-- First-of-two on options, the shape of a shadowing lookup. -/
def optFirst {α : Type} (a b : Option α) : Option α :=
  match a with
  | some v => some v
  | none => b

theorem optFirst_none_right {α : Type} (a : Option α) : optFirst a none = a := by
  cases a <;> rfl

theorem optFirst_assoc {α : Type} (a b c : Option α) :
    optFirst (optFirst a b) c = optFirst a (optFirst b c) := by
  cases a <;> rfl

theorem dictLookup_dictSet_self {α : Type} (d : List (String × α)) (k : String) (v : α) :
    dictLookup k (dictSet d k v) = some v := by
  induction d with
  | nil => simp [dictSet, dictLookup]
  | cons p rest ih =>
    by_cases h : p.1 = k <;> simp [dictSet, dictLookup, h, ih]

theorem dictLookup_dictSet_ne {α : Type} (d : List (String × α)) (k k1 : String) (v : α)
    (h : k1 ≠ k) : dictLookup k1 (dictSet d k v) = dictLookup k1 d := by
  have hk : ¬ k = k1 := fun hc => h hc.symm
  induction d with
  | nil => simp [dictSet, dictLookup, hk]
  | cons p rest ih =>
    by_cases hp : p.1 = k
    · have hp1 : ¬ p.1 = k1 := by
        rw [hp]
        exact hk
      simp [dictSet, dictLookup, hp, hp1, hk]
    · by_cases hq : p.1 = k1 <;> simp [dictSet, dictLookup, hp, hq, ih, h]

theorem dictLookup_dictSet {α : Type} (d : List (String × α)) (k k1 : String) (v : α) :
    dictLookup k1 (dictSet d k v) = if k = k1 then some v else dictLookup k1 d := by
  by_cases h : k = k1
  · subst h
    simp [dictLookup_dictSet_self]
  · simp [h, dictLookup_dictSet_ne d k k1 v (fun hc => h hc.symm)]

theorem dictLookup_append {α : Type} (k : String) (l1 l2 : List (String × α)) :
    dictLookup k (l1 ++ l2) = optFirst (dictLookup k l1) (dictLookup k l2) := by
  induction l1 with
  | nil => rfl
  | cons p rest ih =>
    by_cases h : p.1 = k <;> simp [dictLookup, h, ih, optFirst]

theorem dictLookup_eq_none {α : Type} (l : List (String × α)) (k : String)
    (h : k ∉ l.map Prod.fst) : dictLookup k l = none := by
  induction l with
  | nil => rfl
  | cons p rest ih =>
    simp only [List.map_cons, List.mem_cons] at h
    push_neg at h
    have hp : ¬ p.1 = k := fun hc => h.1 hc.symm
    simp [dictLookup, hp, ih h.2]

theorem dictLookup_dictUpdate {α : Type} (e : List (String × α)) :
    ∀ (d : List (String × α)) (k : String),
      dictLookup k (dictUpdate d e) =
        optFirst (dictLookup k e.reverse) (dictLookup k d) := by
  induction e with
  | nil => intro d k; rfl
  | cons p e ih =>
    intro d k
    have h1 : dictUpdate d (p :: e) = dictUpdate (dictSet d p.1 p.2) e := rfl
    rw [h1, ih]
    have h2 : (p :: e).reverse = e.reverse ++ [p] := by simp
    rw [h2, dictLookup_append, optFirst_assoc]
    congr 1
    rw [dictLookup_dictSet]
    by_cases h : p.1 = k <;> simp [dictLookup, h, optFirst]

theorem dictLookup_reverse_of_nodup {α : Type} (e : List (String × α))
    (h : (e.map Prod.fst).Nodup) (k : String) :
    dictLookup k e.reverse = dictLookup k e := by
  induction e with
  | nil => rfl
  | cons p rest ih =>
    simp only [List.map_cons, List.nodup_cons] at h
    have h2 : (p :: rest).reverse = rest.reverse ++ [p] := by simp
    rw [h2, dictLookup_append, ih h.2]
    by_cases hp : p.1 = k
    · have : dictLookup k rest = none := by
        apply dictLookup_eq_none
        rw [← hp]
        exact h.1
      simp [this, dictLookup, hp, optFirst]
    · simp [dictLookup, hp, optFirst_none_right]

theorem mem_keys_dictSet {α : Type} (d : List (String × α)) (k : String) (v : α)
    (a : String) :
    a ∈ (dictSet d k v).map Prod.fst ↔ a ∈ d.map Prod.fst ∨ a = k := by
  induction d with
  | nil => simp [dictSet]
  | cons p rest ih =>
    by_cases h : p.1 = k
    · subst h
      simp [dictSet]
      tauto
    · simp [dictSet, h, ih]
      tauto

theorem nodup_keys_dictSet {α : Type} (d : List (String × α)) (k : String) (v : α)
    (h : (d.map Prod.fst).Nodup) : ((dictSet d k v).map Prod.fst).Nodup := by
  induction d with
  | nil => simp [dictSet]
  | cons p rest ih =>
    simp only [List.map_cons, List.nodup_cons] at h
    by_cases hp : p.1 = k
    · subst hp
      simpa [dictSet, List.nodup_cons] using h
    · rw [show dictSet (p :: rest) k v = p :: dictSet rest k v from by
        simp [dictSet, hp]]
      simp only [List.map_cons, List.nodup_cons]
      constructor
      · rw [mem_keys_dictSet]
        push_neg
        exact ⟨h.1, hp⟩
      · exact ih h.2

theorem nodup_keys_dictUpdate {α : Type} (e : List (String × α)) :
    ∀ (d : List (String × α)), (d.map Prod.fst).Nodup →
      ((dictUpdate d e).map Prod.fst).Nodup := by
  induction e with
  | nil => intro d h; exact h
  | cons p e ih =>
    intro d h
    exact ih (dictSet d p.1 p.2) (nodup_keys_dictSet d p.1 p.2 h)

/-! ## Concrete fixtures used by the claim theorems -/

/-- An integer primary-key id column holding the value 1. -/
def idPkCol : DataType :=
  DataType_init .integer (some (.vInt 1)) true none false none false false

/-- A text column with no value, no default, no constraints. -/
def plainTextCol : DataType :=
  DataType_init .text none false none false none false false

/-- A clean text column holding the value x. -/
def c1NameCol : DataType :=
  DataType_init .text (some (.vStr "x")) false none false none false false

/-- A persisted row with id 1 and a clean name column: nothing dirty. -/
def c1Inst : Instance :=
  { table := { class_name := "T", db_name := some "t" },
    attrs := [("id", idPkCol), ("name", c1NameCol)] }

/-- A dirty text column holding the value Bob. -/
def c2NameCol : DataType :=
  { DataType_init .text (some (.vStr "Bob")) false none false none false false with
    changed := true }

/-- A persisted row with id 1 whose name column is dirty. -/
def c2Inst : Instance :=
  { table := { class_name := "T", db_name := some "t" },
    attrs := [("id", idPkCol), ("name", c2NameCol)] }

/-! ## C1 -/

/-- C1 (code bug): the claim says that with no dirty column the update
compiler returns a no-statement sentinel and migrate skips execution.
The source has no such path: SQLUpdateInstance.parse always returns a
string.  On a persisted row with nothing dirty it returns the malformed
statement with an empty set clause, and migrate hands exactly that
statement to the driver instead of skipping (its command_str-is-None
guard is dead code). -/
theorem c1_no_dirty_update_still_compiles_and_executes :
    Except.map Prod.fst (SQLUpdateInstance_parse c1Inst 0) =
      .ok "update t set where t.id = 1" ∧
    Except.map Prod.fst (migrate c1Inst 0 7) =
      .ok (some "update t set where t.id = 1") :=
  ⟨rfl, rfl⟩

/-! ## C2 -/

/-- C2 (code bug): the claim says a successful persist clears every
dirty flag, making a second persist compile no statement.  The source of
clear_change assigns the attribute named underscore-change instead of
the dirty flag underscore-changed, so after a successful migrate the
name column is still dirty and a second migrate compiles the same update
statement again. -/
theorem c2_clear_change_leaves_dirty_flag_set :
    (DataType.clear_change c2NameCol).changed = true ∧
    (DataType.clear_change c2NameCol).change_ = some false ∧
    Except.map (fun r => (r.1, r.2.attrs.map (fun p => (p.1, p.2.changed))))
        (migrate c2Inst 0 7) =
      .ok (some "update t set name = \"Bob\" where t.id = 1",
           [("id", false), ("name", true)]) ∧
    Except.map Prod.fst (migrate c2Inst 0 7 >>= fun r => migrate r.2 0 7) =
      .ok (some "update t set name = \"Bob\" where t.id = 1") :=
  ⟨rfl, rfl, rfl, rfl⟩

/-! ## C5 -/

/-- C5 (code bug): the claim says the delete compiler returns the
statement with the table name and predicate substituted in.  The source
computes command_str.format(**data) but discards the result and returns
the reformatted raw template, so the caller receives the placeholder
text itself, with and without a filter. -/
theorem c5_delete_returns_unsubstituted_template :
    SQLDeleteInstances_parse [] none = .ok "delete from \x7btable_name\x7d" ∧
    SQLDeleteInstances_parse [("name", plainTextCol)]
        (some [("name", some (.vStr "x"))]) =
      .ok "delete from \x7btable_name\x7d where \x7bfilter_str\x7d" :=
  ⟨rfl, rfl⟩

/-! ## C7 -/

/-- An integer column with absent value and no default. -/
def nullIntCol : DataType := DataType_init .integer none false none false none false false

/-- A real column with absent value and no default. -/
def nullRealCol : DataType := DataType_init .real none false none false none false false

/-- A timestamp column with absent value, no default, no autofill. -/
def nullTsCol : DataType :=
  DataType_init .datetimeText none false none false none false false

/-- A boolean column with absent value and no default. -/
def nullBoolCol : DataType := DataType_init .boolean none false none false none false false

/-- C7 (code bug): the claim says every kind renders an absent value as
the literal null without failing, in particular boolean.  Integer, real,
text and plain timestamp columns do; the boolean override evaluates
int(self.value) before the None test, so an absent boolean raises a
TypeError instead. -/
theorem c7_null_rendering_boolean_crashes :
    DataType.to_sqlite nullIntCol none 0 = .ok ("null", nullIntCol) ∧
    DataType.to_sqlite nullRealCol none 0 = .ok ("null", nullRealCol) ∧
    DataType.to_sqlite plainTextCol none 0 = .ok ("null", plainTextCol) ∧
    DataType.to_sqlite nullTsCol none 0 = .ok ("null", nullTsCol) ∧
    DataType.to_sqlite nullBoolCol none 0 = .error .pyTypeError :=
  ⟨rfl, rfl, rfl, rfl, rfl⟩

theorem except_throw_eq {ε α : Type} (e : ε) :
    (throw e : Except ε α) = Except.error e := rfl

theorem except_pure_eq {ε α : Type} (a : α) :
    (pure a : Except ε α) = Except.ok a := rfl

/-! ## C3 -/

/-- A timestamp column with autofill_on_update (update_on_modified). -/
def c3TsModCol : DataType :=
  DataType_init .datetimeText none false none false none false true

/-- An integer primary-key column with no value. -/
def c3PkIntCol : DataType :=
  DataType_init .integer none true none false none false false

/-- C3 counterexample: on a TimestampText column with
update_on_modified, update does NOT raise AutofillViolationError as the
claim states: DataTypeDateTime.update returns None silently and leaves
the column unchanged. -/
theorem c3_timestamp_update_not_raising :
    DataType.update c3TsModCol (some (.vStr "2021-01-01 00:00:00.000")) false =
      .ok (none, c3TsModCol) ∧
    DataType.update c3TsModCol (some (.vStr "2021-01-01 00:00:00.000")) false ≠
      .error (.attributeAutofillError (some (.vStr "2021-01-01 00:00:00.000"))) := by
  refine ⟨rfl, ?_⟩
  intro h
  exact Except.noConfusion h

/-- C3 as amended: a non-timestamp column with is_primary_key raises
AutofillViolationError on every update; a TimestampText column that is
autofilled (primary key, or update_on_modified, or update_on_created
while unset) silently returns None from update and is left unchanged. -/
theorem c3_autofill_update_behaviour (d : DataType) (v : Option Val) (tc : Bool) :
    (d.kind ≠ .datetimeText → d.primary_key = true →
      DataType.update d v tc = .error (.attributeAutofillError v)) ∧
    (d.kind = .datetimeText → d.autofill_check = true →
      DataType.update d v tc = .ok (none, d)) := by
  constructor
  · intro hk hpk
    have hac : d.autofill_check = true := by
      simp [DataType.autofill_check, hk, hpk]
    simp [DataType.update, hk, update_base, hac, except_throw_eq]
  · intro hk hac
    simp [DataType.update, hk, update_datetime, hac, except_pure_eq]

/-- Witness for C3: both halves applied at concrete columns. -/
theorem c3_autofill_update_behaviour_witness :
    DataType.update c3PkIntCol (some (.vInt 5)) true =
      .error (.attributeAutofillError (some (.vInt 5))) ∧
    DataType.update c3TsModCol (some (.vInt 5)) true = .ok (none, c3TsModCol) :=
  ⟨(c3_autofill_update_behaviour c3PkIntCol (some (.vInt 5)) true).1
      (by decide) rfl,
   (c3_autofill_update_behaviour c3TsModCol (some (.vInt 5)) true).2
      rfl (by decide)⟩

/-! ## C9 -/

/-- A plain timestamp column for the type-check claims. -/
def c9TsCol : DataType :=
  DataType_init .datetimeText none false none false none false false

/-- C9 counterexample: a string candidate that matches neither the
pattern nor the datetime runtime type makes type_check return false
silently; the claim says it raises TypeMismatchError. -/
theorem c9_nonmatching_string_returns_false :
    DataType.type_check c9TsCol (some (.vStr "hello")) = .ok false ∧
    DataType.type_check c9TsCol (some (.vStr "hello")) ≠
      .error (.attributeTypeError .datetimeText (.vStr "hello")) := by
  refine ⟨rfl, ?_⟩
  intro h
  exact Except.noConfusion h

/-- C9 as amended: on a TimestampText column, type_check answers true
for None and for datetime values; a string candidate is answered by the
fixed-pattern prefix match, true or false, never an exception; every
other candidate raises TypeMismatchError.  The last two conjuncts pin
the pattern down at sample strings. -/
theorem c9_timestamp_type_check_cases (d : DataType) (hk : d.kind = .datetimeText) :
    DataType.type_check d none = .ok true ∧
    (∀ s : String, DataType.type_check d (some (.vStr s)) = .ok (matchTsRegex s)) ∧
    (∀ t : Nat, DataType.type_check d (some (.vDatetime t)) = .ok true) ∧
    (∀ n : Int, DataType.type_check d (some (.vInt n)) =
      .error (.attributeTypeError d.kind (.vInt n))) ∧
    (∀ r : Int, DataType.type_check d (some (.vReal r)) =
      .error (.attributeTypeError d.kind (.vReal r))) ∧
    (∀ b : Bool, DataType.type_check d (some (.vBool b)) =
      .error (.attributeTypeError d.kind (.vBool b))) ∧
    matchTsRegex "2021-07-09 12:30:45.123" = true ∧
    matchTsRegex "hello" = false := by
  refine ⟨?_, ?_, ?_, ?_, ?_, ?_, by decide, by decide⟩ <;>
    simp [DataType.type_check, hk, type_check_base, isinstanceOf,
      except_throw_eq, except_pure_eq]

/-- Witness for C9: the cases applied at a concrete timestamp column. -/
theorem c9_timestamp_type_check_cases_witness :
    DataType.type_check c9TsCol none = .ok true ∧
    DataType.type_check c9TsCol (some (.vStr "2021-07-09 12:30:45.123")) = .ok true ∧
    DataType.type_check c9TsCol (some (.vInt 3)) =
      .error (.attributeTypeError Kind.datetimeText (.vInt 3)) := by
  obtain ⟨h1, h2, _, h4, _⟩ := c9_timestamp_type_check_cases c9TsCol rfl
  refine ⟨h1, ?_, h4 3⟩
  rw [h2 "2021-07-09 12:30:45.123"]
  exact congrArg Except.ok (by decide)

/-! ## C4 -/

/-- A plain integer column used as grandparent and parent payload. -/
def c4IntCol : DataType := DataType_init .integer none false none false none false false

/-- A plain text column used to exhibit shadowing. -/
def c4TextCol : DataType := DataType_init .text none false none false none false false

/-- A three-level chain: colA declared only by the grandparent. -/
def c4ClassA : PyClass := .mk "A" [("colA", .dataCol c4IntCol)] [] none

/-- The middle class declaring colB. -/
def c4ClassB : PyClass := .mk "B" [("colB", .dataCol c4IntCol)] [c4ClassA] none

/-- The leaf class declaring colC. -/
def c4ClassC : PyClass := .mk "C" [("colC", .dataCol c4IntCol)] [c4ClassB] none

/-- C4 counterexample: in a three-level parent chain the merge loses the
grandparent column colA (the claim says every ancestor column more than
one level up is present), while the direct parent column colB survives;
at the middle class colA is still visible, confirming the merge reads
one level of bases only. -/
theorem c4_grandparent_column_lost :
    dictLookup "colA" (get_class_attrs c4ClassC) = none ∧
    dictLookup "colB" (get_class_attrs c4ClassC) = some (.dataCol c4IntCol) ∧
    dictLookup "colA" (get_class_attrs c4ClassB) = some (.dataCol c4IntCol) :=
  ⟨rfl, rfl, rfl⟩

/-- C4 as amended: the merge covers the DIRECT bases only.  For a class
with one direct base, every own declaration wins by name, every base
declaration not overridden survives with the base value, the merged
names are unique, and the merge never consults the bases of the base
(so columns declared solely two or more levels up are absent). -/
theorem c4_direct_base_merge
    (n bn : String) (own bown : List (String × ClsMember))
    (bb : List PyClass) (dbn bdbn : Option String)
    (h1 : ((filter_attrs own).map Prod.fst).Nodup)
    (h2 : ((filter_attrs bown).map Prod.fst).Nodup) :
    (∀ k v, dictLookup k (filter_attrs own) = some v →
      dictLookup k (get_class_attrs (.mk n own [.mk bn bown bb bdbn] dbn)) = some v) ∧
    (∀ k v, dictLookup k (filter_attrs own) = none →
      dictLookup k (filter_attrs bown) = some v →
      dictLookup k (get_class_attrs (.mk n own [.mk bn bown bb bdbn] dbn)) = some v) ∧
    ((get_class_attrs (.mk n own [.mk bn bown bb bdbn] dbn)).map Prod.fst).Nodup ∧
    (∀ bb2 : List PyClass,
      get_class_attrs (.mk n own [.mk bn bown bb2 bdbn] dbn) =
        get_class_attrs (.mk n own [.mk bn bown bb bdbn] dbn)) := by
  have hunfold : get_class_attrs (.mk n own [.mk bn bown bb bdbn] dbn) =
      dictUpdate (dictUpdate [] (filter_attrs bown)) (filter_attrs own) := rfl
  refine ⟨?_, ?_, ?_, fun bb2 => rfl⟩
  · intro k v hk
    rw [hunfold, dictLookup_dictUpdate,
      dictLookup_reverse_of_nodup (filter_attrs own) h1, hk]
    rfl
  · intro k v hnone hsome
    rw [hunfold, dictLookup_dictUpdate,
      dictLookup_reverse_of_nodup (filter_attrs own) h1, hnone,
      dictLookup_dictUpdate,
      dictLookup_reverse_of_nodup (filter_attrs bown) h2, hsome]
    rfl
  · rw [hunfold]
    exact nodup_keys_dictUpdate (filter_attrs own) _
      (nodup_keys_dictUpdate (filter_attrs bown) [] (by simp))

/-- Witness for C4: a child overriding the name x of its direct base and
inheriting y, merged with unique names. -/
theorem c4_direct_base_merge_witness :
    dictLookup "x"
      (get_class_attrs (.mk "C" [("x", .dataCol c4TextCol)]
        [.mk "B" [("x", .dataCol c4IntCol), ("y", .dataCol c4IntCol)] [] none] none)) =
      some (.dataCol c4TextCol) ∧
    dictLookup "y"
      (get_class_attrs (.mk "C" [("x", .dataCol c4TextCol)]
        [.mk "B" [("x", .dataCol c4IntCol), ("y", .dataCol c4IntCol)] [] none] none)) =
      some (.dataCol c4IntCol) ∧
    ((get_class_attrs (.mk "C" [("x", .dataCol c4TextCol)]
        [.mk "B" [("x", .dataCol c4IntCol), ("y", .dataCol c4IntCol)] [] none] none)).map
      Prod.fst).Nodup := by
  obtain ⟨ha, hb, hc, _⟩ := c4_direct_base_merge "C" "B"
    [("x", .dataCol c4TextCol)]
    [("x", .dataCol c4IntCol), ("y", .dataCol c4IntCol)]
    [] none none (by decide) (by decide)
  exact ⟨ha "x" (.dataCol c4TextCol) (by decide),
    hb "y" (.dataCol c4IntCol) (by decide) (by decide), hc⟩

/-! ## C8 -/

theorem except_bind_ok {ε α β : Type} (a : α) (f : α → Except ε β) :
    (Except.ok a : Except ε α) >>= f = f a := rfl

theorem except_bind_error {ε α β : Type} (e : ε) (f : α → Except ε β) :
    (Except.error e : Except ε α) >>= f = Except.error e := rfl

/-- One rendered conjunct of the filter predicate: the pair carries a
non-None value, the column is found in the schema, the storage literal
renders, and the conjunct is the name, the equals sign and the literal. -/
def filterPairSpec (attrs : List (String × DataType))
    (p : String × Option Val) (e : String) : Prop :=
  ∃ v d lit, p.2 = some v ∧ dictLookup p.1 attrs = some d ∧
    to_sqlite_val d v = .ok lit ∧ e = p.1 ++ " = " ++ lit

theorem filterParts_skip_none (attrs : List (String × DataType)) :
    ∀ fl : List (String × Option Val),
      filterParts attrs fl = filterParts attrs (fl.filter (fun p => p.2.isSome)) := by
  intro fl
  induction fl with
  | nil => rfl
  | cons p rest ih =>
    obtain ⟨n, v⟩ := p
    cases v with
    | none => simpa [filterParts, List.filter] using ih
    | some v => simp [filterParts, List.filter, ih]

theorem filterParts_spec (attrs : List (String × DataType)) :
    ∀ (fl : List (String × Option Val)) (L : List String),
      filterParts attrs fl = .ok L →
      List.Forall₂ (filterPairSpec attrs) (fl.filter (fun p => p.2.isSome)) L := by
  intro fl
  induction fl with
  | nil =>
    intro L h
    simp only [filterParts, except_pure_eq, Except.ok.injEq] at h
    subst h
    simp
  | cons p rest ih =>
    obtain ⟨n, v⟩ := p
    cases v with
    | none =>
      intro L h
      simp only [filterParts] at h
      simpa [List.filter] using ih L h
    | some v =>
      intro L h
      cases hlook : dictLookup n attrs with
      | none =>
        simp [filterParts, hlook, except_throw_eq, except_bind_error] at h
      | some d =>
        simp only [filterParts, hlook, except_pure_eq, except_bind_ok] at h
        cases hlit : to_sqlite_val d v with
        | error e =>
          rw [hlit] at h
          simp [except_bind_error] at h
        | ok lit =>
          rw [hlit, except_bind_ok] at h
          cases htl : filterParts attrs rest with
          | error e2 =>
            rw [htl] at h
            simp [except_bind_error] at h
          | ok tl =>
            rw [htl] at h
            simp only [except_bind_ok, except_pure_eq, Except.map_ok,
              Except.ok.injEq] at h
            subst h
            simp only [List.filter]
            exact List.Forall₂.cons ⟨v, d, lit, rfl, hlook, hlit, rfl⟩ (ih tl htl)

/-- C8 (confirmed): the compiled filter predicate drops every pair with
a None value entirely, and on success the produced string is the
and-join of exactly one name-equals-literal conjunct per remaining pair,
in order. -/
theorem c8_filter_predicate_shape (attrs : List (String × DataType))
    (fl : List (String × Option Val)) :
    parse_filter attrs fl =
      parse_filter attrs (fl.filter (fun p => p.2.isSome)) ∧
    (∀ s, parse_filter attrs fl = .ok s →
      ∃ L : List String,
        List.Forall₂ (filterPairSpec attrs) (fl.filter (fun p => p.2.isSome)) L ∧
        s = pyJoin " and " L) := by
  constructor
  · simp [parse_filter, filterParts_skip_none attrs fl]
  · intro s h
    simp only [parse_filter] at h
    cases hp : filterParts attrs fl with
    | error e =>
      rw [hp] at h
      simp [except_bind_error] at h
    | ok L =>
      rw [hp] at h
      simp only [except_bind_ok, except_pure_eq, Except.map_ok,
        Except.ok.injEq] at h
      exact ⟨L, filterParts_spec attrs fl L hp, h.symm⟩

/-- Schema used by the C8 witness: two text columns. -/
def c8Attrs : List (String × DataType) :=
  [("status", plainTextCol), ("type", plainTextCol)]

/-- Witness for C8, the scenario from the specification: the filter with
status None and type active compiles to the single conjunct on type; the
None-valued key is dropped, not rendered. -/
theorem c8_filter_predicate_shape_witness :
    parse_filter c8Attrs [("status", none), ("type", some (.vStr "active"))] =
      parse_filter c8Attrs
        ([("status", none), ("type", some (.vStr "active"))].filter
          (fun p => p.2.isSome)) ∧
    (∃ L : List String,
      List.Forall₂ (filterPairSpec c8Attrs)
        ([("status", none), ("type", some (.vStr "active"))].filter
          (fun p => p.2.isSome)) L ∧
      "type = \"active\"" = pyJoin " and " L) := by
  have h := c8_filter_predicate_shape c8Attrs
    [("status", none), ("type", some (.vStr "active"))]
  exact ⟨h.1, h.2 "type = \"active\"" rfl⟩

/-! ## C10 -/

theorem to_sqlite_modified (d : DataType) (now : Nat)
    (hk : d.kind = .datetimeText) (hm : d.update_on_modified = true) :
    d.to_sqlite none now = .ok (tsLiteral now, d.autofill now) ∧
    (d.autofill now).changed = true ∧
    (d.autofill now).value = some (.vDatetime now) := by
  refine ⟨?_, ?_, ?_⟩ <;>
    simp [DataType.to_sqlite, to_sqlite_auto, DataType.autofill,
      DataType.set_change, hk, hm, except_pure_eq]

theorem mem_updateChanges_cons (p : String × String × Bool)
    (tl : List (String × String × Bool)) (x : String)
    (h : x ∈ updateChanges tl) : x ∈ updateChanges (p :: tl) := by
  obtain ⟨n1, s1, b1⟩ := p
  cases b1 <;> simp [updateChanges] at h ⊢ <;> tauto

/-- C10 (confirmed): the per-column loop of the update compiler renders
every column of the row through to_sqlite, not only the dirty ones; and
every TimestampText column with autofill_on_update gets stamped with the
current instant, is marked dirty, ends in the post-parse state with the
fresh timestamp, and its name-equals-literal entry appears in the
compiled set clause. -/
theorem c10_update_renders_every_column
    (attrs : List (String × DataType)) (now : Nat)
    (rend : List (String × String × Bool)) (attrs1 : List (String × DataType))
    (h : renderAttrs attrs now = .ok (rend, attrs1)) :
    rend.map (fun p => p.1) = attrs.map (fun p => p.1) ∧
    (∀ nm d, (nm, d) ∈ attrs → d.kind = .datetimeText →
      d.update_on_modified = true →
      (nm, tsLiteral now, true) ∈ rend ∧
      (nm ++ " = " ++ tsLiteral now) ∈ updateChanges rend ∧
      (nm, d.autofill now) ∈ attrs1 ∧
      (d.autofill now).changed = true ∧
      (d.autofill now).value = some (.vDatetime now)) := by
  induction attrs generalizing rend attrs1 with
  | nil =>
    simp only [renderAttrs, except_pure_eq, Except.ok.injEq, Prod.mk.injEq] at h
    obtain ⟨h1, h2⟩ := h
    subst h1
    subst h2
    simp
  | cons p rest ih =>
    obtain ⟨n, a⟩ := p
    cases hs : a.to_sqlite none now with
    | error e =>
      simp [renderAttrs, hs, except_bind_error] at h
    | ok r =>
      obtain ⟨s, a1⟩ := r
      cases hr : renderAttrs rest now with
      | error e =>
        simp [renderAttrs, hs, hr, except_bind_ok, except_bind_error] at h
      | ok tr =>
        obtain ⟨tl, rest1⟩ := tr
        simp only [renderAttrs, hs, hr, except_bind_ok, except_pure_eq,
          Except.ok.injEq, Prod.mk.injEq] at h
        obtain ⟨h1, h2⟩ := h
        subst h1
        subst h2
        obtain ⟨ihm, ihd⟩ := ih tl rest1 hr
        constructor
        · simp [ihm]
        · intro nm d hmem hk hm
          rcases List.mem_cons.mp hmem with hhead | htail
          · obtain ⟨hn, hd⟩ := Prod.mk.injEq .. ▸ hhead
            subst hn
            subst hd
            obtain ⟨he, hch, hv⟩ := to_sqlite_modified d now hk hm
            rw [hs] at he
            obtain ⟨hse, hae⟩ := Prod.mk.injEq .. ▸ (Except.ok.injEq .. ▸ he)
            subst hse
            subst hae
            refine ⟨?_, ?_, by simp, hch, hv⟩
            · simp [hch]
            · simp [updateChanges, hch]
          · obtain ⟨hm1, hm2, hm3, hm4, hm5⟩ := ihd nm d htail hk hm
            exact ⟨List.mem_cons_of_mem _ hm1,
              mem_updateChanges_cons _ tl _ hm2,
              List.mem_cons_of_mem _ hm3, hm4, hm5⟩

/-- A timestamp column with autofill_on_update for the C10 witness. -/
def c10ModCol : DataType :=
  DataType_init .datetimeText none false none false none false true

/-- Witness for C10: one modified-timestamp column rendered at instant
5 lands in the set clause and in the rendered list. -/
theorem c10_update_renders_every_column_witness :
    ("modified", tsLiteral 5, true) ∈ [("modified", tsLiteral 5, true)] ∧
    ("modified" ++ " = " ++ tsLiteral 5) ∈
      updateChanges [("modified", tsLiteral 5, true)] := by
  have h := c10_update_renders_every_column [("modified", c10ModCol)] 5
    [("modified", tsLiteral 5, true)] [("modified", c10ModCol.autofill 5)] rfl
  obtain ⟨h1, h2, _⟩ := h.2 "modified" c10ModCol (by simp) rfl rfl
  exact ⟨h1, h2⟩

/-! ## C6 -/


/-- The constraint-token walk of _parse_constraints always visits
primary_key, then foreign_key, then not_null, whatever the column kind
is (the extra datetime instance attributes are skipped by the KeyError
guard). -/
theorem parse_constraints_toks (d : DataType) :
    parse_constraints d =
      reformat (pyJoin " "
        [parse_primary_key d, parse_foreign_key d, parse_not_null d]) := by
  by_cases hk : d.kind = .datetimeText <;>
    simp [parse_constraints, colInstanceAttrNames, hk]

/-- A string with no whitespace characters, the shape of table and
column names. -/
def wsFree (s : String) : Prop := ∀ c ∈ s.data, isPySpace c = false

theorem words_nil_str : words ("" : String).data = [] := rfl

theorem refTok_data (t k : String) :
    ("references " ++ t ++ "(" ++ k ++ ")").data =
      "references".data ++ ' ' :: (t.data ++ '(' :: (k.data ++ [')'])) := by
  have h1 : ("references " : String).data = "references".data ++ [' '] := rfl
  have h2 : ("(" : String).data = ['('] := rfl
  have h3 : (")" : String).data = [')'] := rfl
  simp [strData_append, h1, h2, h3]

/-- The references clause built from whitespace-free names is a
normalized token: reformat leaves it unchanged. -/
theorem normalizedTok_ref (t k : String) (ht : wsFree t) (hk : wsFree k) :
    normalizedTok ("references " ++ t ++ "(" ++ k ++ ")") := by
  have hmid : ∀ c ∈ t.data ++ '(' :: (k.data ++ [')']), isPySpace c = false := by
    intro c hc
    simp only [List.mem_append, List.mem_cons, List.mem_singleton] at hc
    rcases hc with h | h | h | h | h
    · exact ht c h
    · subst h; decide
    · exact hk c h
    · subst h; decide
    · simp at h
  have hne : t.data ++ '(' :: (k.data ++ [')']) ≠ [] := by simp
  have hw : words ("references " ++ t ++ "(" ++ k ++ ")").data =
      ["references".data, t.data ++ '(' :: (k.data ++ [')'])] := by
    rw [refTok_data, words_append_space,
      words_of_nonspace "references".data (by decide) (by decide),
      words_of_nonspace _ hmid hne]
    rfl
  constructor
  · rw [hw, refTok_data]
    simp [List.intercalate, List.intersperse]
  · rw [hw]
    simp

theorem words_nil : words ([] : List Char) = [] := rfl

theorem normalizedTok_primary_key : normalizedTok "primary key" := ⟨rfl, by decide⟩

theorem normalizedTok_not_null : normalizedTok "not null" := ⟨rfl, by decide⟩

/-- C6 as amended: for every column whose referenced table and column
names carry no whitespace, the constraint clause is the space-join of
exactly the applicable tokens in the order primary key, then
references parent(key or id), then not null (empty when none apply) --
the references token comes BEFORE not null, not after as claimed. -/
theorem c6_constraint_clause_order (d : DataType)
    (hfk : ∀ f : FK, d.foreign_key = some f →
      wsFree (get_table_name f.parent) ∧ wsFree (f.parent_key.getD "id")) :
    parse_constraints d = pyJoin " " (
      (if d.primary_key then ["primary key"] else []) ++
      (match d.foreign_key with
       | some f => ["references " ++ get_table_name f.parent ++ "(" ++
           f.parent_key.getD "id" ++ ")"]
       | none => []) ++
      (if d.not_null then ["not null"] else [])) := by
  rw [parse_constraints_toks]
  rcases hf : d.foreign_key with _ | f
  · cases hp : d.primary_key <;> cases hn : d.not_null <;>
      simp only [parse_primary_key, parse_not_null, parse_foreign_key, hf, hp, hn,
        if_true, if_false, Bool.false_eq_true, List.nil_append, List.append_nil] <;>
      decide
  · obtain ⟨ht, hk2⟩ := hfk f hf
    have hnorm := normalizedTok_ref (get_table_name f.parent)
      (f.parent_key.getD "id") ht hk2
    cases hp : d.primary_key <;> cases hn : d.not_null <;>
      simp only [parse_primary_key, parse_not_null, parse_foreign_key, hf, hp, hn,
        if_true, if_false, Bool.false_eq_true, List.nil_append, List.append_nil]
    · rw [reformat_pyJoin_congr ["",
        "references " ++ get_table_name f.parent ++ "(" ++ f.parent_key.getD "id" ++ ")",
        ""] ["references " ++ get_table_name f.parent ++ "(" ++ f.parent_key.getD "id" ++ ")"]
        (by simp [words_nil_str, words_nil])]
      refine reformat_pyJoin _ ?_
      intro s hs
      simp only [List.mem_singleton] at hs
      subst hs
      exact hnorm
    · rw [reformat_pyJoin_congr ["",
        "references " ++ get_table_name f.parent ++ "(" ++ f.parent_key.getD "id" ++ ")",
        "not null"] ["references " ++ get_table_name f.parent ++ "(" ++ f.parent_key.getD "id" ++ ")",
        "not null"] (by simp [words_nil_str, words_nil])]
      refine reformat_pyJoin _ ?_
      intro s hs
      rcases List.mem_cons.mp hs with h | h
      · subst h; exact hnorm
      · simp only [List.mem_singleton] at h
        subst h
        exact normalizedTok_not_null
    · rw [reformat_pyJoin_congr ["primary key",
        "references " ++ get_table_name f.parent ++ "(" ++ f.parent_key.getD "id" ++ ")",
        ""] ["primary key",
        "references " ++ get_table_name f.parent ++ "(" ++ f.parent_key.getD "id" ++ ")"]
        (by simp [words_nil_str, words_nil])]
      refine reformat_pyJoin _ ?_
      intro s hs
      rcases List.mem_cons.mp hs with h | h
      · subst h; exact normalizedTok_primary_key
      · simp only [List.mem_singleton] at h
        subst h
        exact hnorm
    · refine reformat_pyJoin _ ?_
      intro s hs
      rcases List.mem_cons.mp hs with h | h
      · subst h; exact normalizedTok_primary_key
      · rcases List.mem_cons.mp h with h2 | h2
        · subst h2; exact hnorm
        · simp only [List.mem_singleton] at h2
          subst h2
          exact normalizedTok_not_null

/-- The foreign key of the C6 example column: the referenced model
resolves to the table name testmodel and the id column. -/
def c6Fk : FK :=
  { parent := { class_name := "BasicTestModel", db_name := some "testmodel" },
    parent_key := some "id" }

/-- An integer column that is both a foreign key and not-null, the shape
of SubTestModel.fk in models.py. -/
def c6FkNnCol : DataType :=
  DataType_init .integer none false (some c6Fk) true none false false

/-- C6 counterexample: for a column with both a foreign key and
not-null, the rendered constraint clause puts the references token
BEFORE not null (the instance dict assigns foreign_key before not_null),
contradicting the claimed order primary key, not null, references. -/
theorem c6_references_precedes_not_null :
    parse_constraints c6FkNnCol = "references testmodel(id) not null" ∧
    parse_constraints c6FkNnCol ≠ "not null references testmodel(id)" ∧
    parse_col "fk" c6FkNnCol = "fk integer references testmodel(id) not null" :=
  ⟨rfl, by decide, rfl⟩

/-- Witness for C6: the order theorem applied at the concrete
foreign-key not-null column. -/
theorem c6_constraint_clause_order_witness :
    parse_constraints c6FkNnCol = "references testmodel(id) not null" := by
  have h := c6_constraint_clause_order c6FkNnCol (by
    intro f hf
    obtain rfl : c6Fk = f := Option.some.inj hf
    exact ⟨by unfold wsFree; decide, by unfold wsFree; decide⟩)
  rw [h]
  decide
